import Mathlib

/-!
Shallow embedding of the Appwrite cloud function in `src/index.js`:
the `MistralService` class and the default handler. JavaScript values
that may be `undefined` are modelled as `Option`; JS exceptions are
modelled as `Except String` (the carried string is `err.message`);
the external Mistral client call `client.chat.complete` and the JSON
parser `JSON.parse` are modelled as function parameters (oracles).
The handler outcome records the response, the list of external chat
requests issued, and the messages passed to the `error` logger.
-/

namespace Stretchate

/-- JS truthiness of a possibly-`undefined` string (`!x` is true for
`undefined` and for the empty string). -/
def truthyStr : Option String → Bool
  | none => false
  | some s => !s.isEmpty

/-- `x || d` on a possibly-`undefined` JS number: `undefined` and `0`
are falsy, any other number is truthy. -/
def jsOrNum (x : Option Int) (d : Int) : Int :=
  match x with
  | some n => if n ≠ 0 then n else d
  | none => d

/-- The destructured request payload: `const \x7b systemPrompt, userMessage,
maxTokens \x7d = payload` (src/index.js line 95). Each field may be absent. -/
structure Payload where
  systemPrompt : Option String
  userMessage : Option String
  maxTokens : Option Int
deriving Repr, DecidableEq

/-- One entry of the `messages` array sent to Mistral (src/index.js 41-50). -/
structure ChatMessage where
  role : String
  content : String
deriving Repr, DecidableEq

/-- The argument object of `client.chat.complete` (src/index.js 54-58). -/
structure ChatRequest where
  model : String
  messages : List ChatMessage
  maxTokens : Int
deriving Repr, DecidableEq

/-- One element of `chatResponse.choices` (src/index.js 61-62). -/
structure ChatChoice where
  message : ChatMessage
deriving Repr, DecidableEq

/-- The value returned by `client.chat.complete`; `choices` may be absent
(src/index.js 61 tests `chatResponse.choices && chatResponse.choices.length > 0`). -/
structure ChatResponse where
  choices : Option (List ChatChoice)
deriving Repr, DecidableEq

/-- The constructed Mistral client, `new Mistral(\x7b apiKey \x7d)`
(src/index.js 18). Only its presence matters to the control flow. -/
structure Client where
  apiKey : String
deriving Repr, DecidableEq

/-- The `MistralService` object state after its constructor ran
(src/index.js 8-21): `isDemo` and `client` are assigned once there and
never reassigned anywhere in the file. -/
structure MistralService where
  isDemo : Bool
  client : Option Client
deriving Repr, DecidableEq

/-- `MistralService` constructor (src/index.js 8-21):
`this.isDemo = !apiKey || apiKey === 'demo-key'`; in demo mode
`this.client = null`, otherwise `this.client = new Mistral(...)`. -/
def MistralService.make (apiKey : String) : MistralService :=
  let isDemo := apiKey.isEmpty || apiKey == "demo-key"
  if isDemo then
    { isDemo := true, client := none }
  else
    { isDemo := false, client := some { apiKey := apiKey } }

/-- Oracle for the external call `client.chat.complete`: it either
returns a `ChatResponse` or throws with a message. -/
abbrev CompleteFn := ChatRequest → Except String ChatResponse

/-- Message of the error thrown by `sendMessage` when the client is null
(src/index.js 33). -/
def demoClientError : String :=
  "Tentativo di inviare messaggio in modalità DEMO senza client attivo."

/-- Message of the error thrown on a response with no choices
(src/index.js 64). -/
def emptyChoicesError : String := "Risposta vuota ricevuta da Mistral AI"

/-- Body of `sendMessage` after the null-client guard (src/index.js 38-71):
build the two-entry `messages` array, call `client.chat.complete` with
model `mistral-large-latest` and the token limit, and extract the first
choice's message content, throwing `emptyChoicesError` when `choices` is
absent or empty. The inner catch re-logs and rethrows, leaving the result
unchanged. Returns the result together with the chat requests issued. -/
def liveSend (complete : CompleteFn) (systemPrompt userMessage : String)
    (maxTokens : Option Int) : Except String String × List ChatRequest :=
  let messages : List ChatMessage :=
    [{ role := "system", content := systemPrompt },
     { role := "user", content := userMessage }]
  let chatReq : ChatRequest :=
    { model := "mistral-large-latest"
      messages := messages
      maxTokens := maxTokens.getD 1000 }
  match complete chatReq with
  | .error e => (.error e, [chatReq])
  | .ok chatResponse =>
    match chatResponse.choices with
    | some (c :: _) => (.ok c.message.content, [chatReq])
    | some [] => (.error emptyChoicesError, [chatReq])
    | none => (.error emptyChoicesError, [chatReq])

/-- `MistralService.sendMessage` (src/index.js 30-72). The parameter
default `maxTokens = 1000` is the JS destructuring default, applied when
the property is `undefined`. If `this.client` is null it throws
`demoClientError`; otherwise it runs the guarded body `liveSend`. -/
def MistralService.sendMessage (svc : MistralService) (complete : CompleteFn)
    (systemPrompt userMessage : String) (maxTokens : Option Int) :
    Except String String × List ChatRequest :=
  match svc.client with
  | none => (.error demoClientError, [])
  | some _ => liveSend complete systemPrompt userMessage maxTokens

/-- `req.body`: either a string (to be `JSON.parse`d) or an
already-parsed object (src/index.js 93). -/
inductive ReqBody where
  | strBody (s : String)
  | objBody (p : Payload)
deriving Repr, DecidableEq

/-- The invocation request: HTTP method and body. -/
structure Request where
  method : String
  body : ReqBody
deriving Repr, DecidableEq

/-- Oracle for `JSON.parse`: a string either parses to a payload or the
parser throws with a message. -/
abbrev ParseFn := String → Except String Payload

/-- Body parsing (src/index.js 93): `typeof req.body === 'string' ?
JSON.parse(req.body) : req.body`. -/
def parsePayload (body : ReqBody) (parseJSON : ParseFn) : Except String Payload :=
  match body with
  | .strBody s => parseJSON s
  | .objBody p => .ok p

/-- A JSON response produced via `res.json(obj, status)`; optional fields
model properties absent from the object literal. -/
structure Response where
  status : Nat
  success : Option Bool
  message : Option String
  data : Option String
  error : Option String
deriving Repr, DecidableEq

/-- Everything one invocation produces: the response, the external chat
requests issued, and the messages passed to the `error` logger. -/
structure Outcome where
  response : Response
  calls : List ChatRequest
  errorLogs : List String
deriving Repr, DecidableEq

/-- The 400 validation message (src/index.js 101). -/
def missingParamsError : String :=
  "Parametri mancanti: systemPrompt e userMessage sono obbligatori."

/-- The demo-mode `message` field (src/index.js 108). -/
def demoNotice : String :=
  "Modalità DEMO: Il servizio è attivo. Nessuna chiamata API reale a Mistral."

/-- The demo-mode `data` field (src/index.js 109), a template literal
embedding the user message. -/
def demoData (userMessage : String) : String :=
  "[DEMO OUTPUT] Ho ricevuto il tuo messaggio: \"" ++ userMessage ++
    "\". Questa è una risposta simulata per testare il flusso."

/-- The `try` block of the handler (src/index.js 90-125): parse the body,
validate `systemPrompt`/`userMessage`, answer directly in demo mode, and
otherwise call `sendMessage` with `maxTokens: maxTokens || 1000`.
`.error e` stands for an exception with message `e` escaping the block. -/
def tryBlock (svc : MistralService) (parseJSON : ParseFn) (complete : CompleteFn)
    (body : ReqBody) : Except String Response × List ChatRequest :=
  match parsePayload body parseJSON with
  | .error e => (.error e, [])
  | .ok payload =>
    if !truthyStr payload.systemPrompt || !truthyStr payload.userMessage then
      (.ok { status := 400, success := some false, message := none, data := none
             error := some missingParamsError }, [])
    else if svc.isDemo then
      (.ok { status := 200, success := some true, message := some demoNotice
             data := some (demoData (payload.userMessage.getD "")), error := none }, [])
    else
      match svc.sendMessage complete (payload.systemPrompt.getD "")
          (payload.userMessage.getD "") (some (jsOrNum payload.maxTokens 1000)) with
      | (.ok responseText, calls) =>
        (.ok { status := 200, success := some true, message := none
               data := some responseText, error := none }, calls)
      | (.error e, calls) => (.error e, calls)

/-- The default export (src/index.js 78-133): read the API key from the
environment (`process.env.MISTRAL_API_KEY || ''`), construct the service,
reject non-POST methods with 405, run the `try` block, and convert any
escaping exception into a logged 500 response. -/
def handler (envApiKey : Option String) (parseJSON : ParseFn) (complete : CompleteFn)
    (req : Request) : Outcome :=
  let apiKey := envApiKey.getD ""
  let mistralService := MistralService.make apiKey
  if req.method ≠ "POST" then
    { response := { status := 405, success := none, message := none, data := none
                    error := some "Method not allowed" }
      calls := [], errorLogs := [] }
  else
    match tryBlock mistralService parseJSON complete req.body with
    | (.ok resp, calls) => { response := resp, calls := calls, errorLogs := [] }
    | (.error e, calls) =>
      { response := { status := 500, success := some false, message := none
                      data := none, error := some e }
        calls := calls
        errorLogs := ["Function execution failed: " ++ e] }

/-- Variant of `tryBlock` in which the call to `sendMessage` is replaced
by its guarded body `liveSend`, i.e. the null-client demo-error branch of
`sendMessage` (src/index.js 32-36) is deleted. Used to state that this
branch is unreachable from the handler entry point. -/
def tryBlockNoGuard (svc : MistralService) (parseJSON : ParseFn) (complete : CompleteFn)
    (body : ReqBody) : Except String Response × List ChatRequest :=
  match parsePayload body parseJSON with
  | .error e => (.error e, [])
  | .ok payload =>
    if !truthyStr payload.systemPrompt || !truthyStr payload.userMessage then
      (.ok { status := 400, success := some false, message := none, data := none
             error := some missingParamsError }, [])
    else if svc.isDemo then
      (.ok { status := 200, success := some true, message := some demoNotice
             data := some (demoData (payload.userMessage.getD "")), error := none }, [])
    else
      match liveSend complete (payload.systemPrompt.getD "")
          (payload.userMessage.getD "") (some (jsOrNum payload.maxTokens 1000)) with
      | (.ok responseText, calls) =>
        (.ok { status := 200, success := some true, message := none
               data := some responseText, error := none }, calls)
      | (.error e, calls) => (.error e, calls)

/-- `handler` built on `tryBlockNoGuard`: the whole function with the
null-client demo-error branch of `sendMessage` deleted. -/
def handlerNoGuard (envApiKey : Option String) (parseJSON : ParseFn) (complete : CompleteFn)
    (req : Request) : Outcome :=
  let apiKey := envApiKey.getD ""
  let mistralService := MistralService.make apiKey
  if req.method ≠ "POST" then
    { response := { status := 405, success := none, message := none, data := none
                    error := some "Method not allowed" }
      calls := [], errorLogs := [] }
  else
    match tryBlockNoGuard mistralService parseJSON complete req.body with
    | (.ok resp, calls) => { response := resp, calls := calls, errorLogs := [] }
    | (.error e, calls) =>
      { response := { status := 500, success := some false, message := none
                      data := none, error := some e }
        calls := calls
        errorLogs := ["Function execution failed: " ++ e] }

/-- A `JSON.parse` oracle that always throws; used in concrete runs whose
body is already an object. -/
def failParse : ParseFn := fun _ => .error "Unexpected token in JSON"

/-- An external-call oracle that always throws; used in concrete runs
that must never reach the external call. -/
def failComplete : CompleteFn := fun _ => .error "network failure"

/-- An external-call oracle returning a single choice with content X. -/
def oneChoiceComplete : CompleteFn := fun _ =>
  .ok { choices := some [{ message := { role := "assistant", content := "X" } }] }

/-! ### Helper lemmas (shared; not claim theorems) -/

/-- The constructor selects demo mode exactly for the empty key and the
sentinel key. -/
theorem make_demo (apiKey : String) (h : apiKey = "" ∨ apiKey = "demo-key") :
    MistralService.make apiKey = { isDemo := true, client := none } := by
  rcases h with h | h <;> subst h <;> rfl

/-- A service constructed in live mode carries a non-null client. -/
theorem make_not_demo (apiKey : String)
    (h : (MistralService.make apiKey).isDemo = false) :
    MistralService.make apiKey = { isDemo := false, client := some { apiKey := apiKey } } := by
  unfold MistralService.make at h ⊢
  by_cases hd : (apiKey.isEmpty || apiKey == "demo-key") = true
  · simp [hd] at h
  · simp [hd]

theorem sendMessage_of_not_demo (apiKey : String) (c : CompleteFn)
    (sp um : String) (mt : Option Int)
    (h : (MistralService.make apiKey).isDemo = false) :
    (MistralService.make apiKey).sendMessage c sp um mt = liveSend c sp um mt := by
  rw [make_not_demo apiKey h]
  rfl

/-- In every branch, `liveSend` issues exactly one chat request, carrying
the two role-tagged messages, the fixed model id and the resolved limit. -/
theorem liveSend_calls (c : CompleteFn) (sp um : String) (mt : Option Int) :
    (liveSend c sp um mt).2 =
      [{ model := "mistral-large-latest"
         messages := [{ role := "system", content := sp }, { role := "user", content := um }]
         maxTokens := mt.getD 1000 }] := by
  unfold liveSend
  dsimp only
  split
  · rfl
  · split <;> rfl

/-- POST invocation whose `try` block succeeds: the block's response is
returned as-is and nothing is error-logged. -/
theorem handler_post_ok (env : Option String) (p : ParseFn) (c : CompleteFn)
    (body : ReqBody) (resp : Response) (calls : List ChatRequest)
    (h : tryBlock (MistralService.make (env.getD "")) p c body = (.ok resp, calls)) :
    handler env p c { method := "POST", body := body } =
      { response := resp, calls := calls, errorLogs := [] } := by
  unfold handler
  dsimp only
  simp [h]

/-- POST invocation whose `try` block throws: the catch clause logs the
message and returns a 500 envelope carrying it. -/
theorem handler_post_error (env : Option String) (p : ParseFn) (c : CompleteFn)
    (body : ReqBody) (e : String) (calls : List ChatRequest)
    (h : tryBlock (MistralService.make (env.getD "")) p c body = (.error e, calls)) :
    handler env p c { method := "POST", body := body } =
      { response := { status := 500, success := some false, message := none
                      data := none, error := some e }
        calls := calls
        errorLogs := ["Function execution failed: " ++ e] } := by
  unfold handler
  dsimp only
  simp [h]

/-- Valid demo-mode POST invocation: canned 200 response, no external call. -/
theorem handler_demo (env : Option String) (p : ParseFn) (c : CompleteFn)
    (body : ReqBody) (payload : Payload)
    (hdemo : env.getD "" = "" ∨ env.getD "" = "demo-key")
    (hparse : parsePayload body p = .ok payload)
    (hsp : truthyStr payload.systemPrompt = true)
    (hum : truthyStr payload.userMessage = true) :
    handler env p c { method := "POST", body := body } =
      { response := { status := 200, success := some true, message := some demoNotice
                      data := some (demoData (payload.userMessage.getD "")), error := none }
        calls := [], errorLogs := [] } := by
  apply handler_post_ok
  unfold tryBlock
  rw [hparse]
  simp [hsp, hum, make_demo _ hdemo]

/-- Valid live-mode POST invocation whose external exchange succeeds with
text `t`. -/
theorem handler_live_ok (env : Option String) (p : ParseFn) (c : CompleteFn)
    (body : ReqBody) (payload : Payload) (t : String) (calls : List ChatRequest)
    (hlive : (MistralService.make (env.getD "")).isDemo = false)
    (hparse : parsePayload body p = .ok payload)
    (hsp : truthyStr payload.systemPrompt = true)
    (hum : truthyStr payload.userMessage = true)
    (hls : liveSend c (payload.systemPrompt.getD "") (payload.userMessage.getD "")
        (some (jsOrNum payload.maxTokens 1000)) = (.ok t, calls)) :
    handler env p c { method := "POST", body := body } =
      { response := { status := 200, success := some true, message := none
                      data := some t, error := none }
        calls := calls, errorLogs := [] } := by
  apply handler_post_ok
  unfold tryBlock
  rw [hparse]
  simp [hsp, hum, hlive, sendMessage_of_not_demo _ _ _ _ _ hlive, hls]

/-- Valid live-mode POST invocation whose external exchange throws `e`. -/
theorem handler_live_error (env : Option String) (p : ParseFn) (c : CompleteFn)
    (body : ReqBody) (payload : Payload) (e : String) (calls : List ChatRequest)
    (hlive : (MistralService.make (env.getD "")).isDemo = false)
    (hparse : parsePayload body p = .ok payload)
    (hsp : truthyStr payload.systemPrompt = true)
    (hum : truthyStr payload.userMessage = true)
    (hls : liveSend c (payload.systemPrompt.getD "") (payload.userMessage.getD "")
        (some (jsOrNum payload.maxTokens 1000)) = (.error e, calls)) :
    handler env p c { method := "POST", body := body } =
      { response := { status := 500, success := some false, message := none
                      data := none, error := some e }
        calls := calls
        errorLogs := ["Function execution failed: " ++ e] } := by
  apply handler_post_error
  unfold tryBlock
  rw [hparse]
  simp [hsp, hum, hlive, sendMessage_of_not_demo _ _ _ _ _ hlive, hls]

/-- A live exchange whose response carries no choices throws
`emptyChoicesError`. -/
theorem liveSend_empty_choices (c : CompleteFn) (sp um : String) (mt : Option Int)
    (resp : ChatResponse)
    (hcall : c { model := "mistral-large-latest"
                 messages := [{ role := "system", content := sp },
                              { role := "user", content := um }]
                 maxTokens := mt.getD 1000 } = .ok resp)
    (hempty : resp.choices = none ∨ resp.choices = some []) :
    liveSend c sp um mt =
      (.error emptyChoicesError,
       [{ model := "mistral-large-latest"
          messages := [{ role := "system", content := sp },
                       { role := "user", content := um }]
          maxTokens := mt.getD 1000 }]) := by
  unfold liveSend
  dsimp only
  rw [hcall]
  dsimp only
  rcases hempty with h | h <;> simp [h]

/-- A live exchange whose response's first choice is `ch` returns its
message content. -/
theorem liveSend_first_choice (c : CompleteFn) (sp um : String) (mt : Option Int)
    (resp : ChatResponse) (ch : ChatChoice) (rest : List ChatChoice)
    (hcall : c { model := "mistral-large-latest"
                 messages := [{ role := "system", content := sp },
                              { role := "user", content := um }]
                 maxTokens := mt.getD 1000 } = .ok resp)
    (hch : resp.choices = some (ch :: rest)) :
    liveSend c sp um mt =
      (.ok ch.message.content,
       [{ model := "mistral-large-latest"
          messages := [{ role := "system", content := sp },
                       { role := "user", content := um }]
          maxTokens := mt.getD 1000 }]) := by
  unfold liveSend
  dsimp only
  rw [hcall]
  dsimp only
  rw [hch]

/-- Every result of the `try` block is an escaping error, the 400
validation response, the demo success response, or the live success
response. -/
theorem tryBlock_cases (svc : MistralService) (p : ParseFn) (c : CompleteFn)
    (body : ReqBody) :
    (∃ e calls, tryBlock svc p c body = (.error e, calls))
    ∨ tryBlock svc p c body =
        (.ok { status := 400, success := some false, message := none, data := none
               error := some missingParamsError }, [])
    ∨ (∃ d, tryBlock svc p c body =
        (.ok { status := 200, success := some true, message := some demoNotice
               data := some d, error := none }, []))
    ∨ (∃ d calls, tryBlock svc p c body =
        (.ok { status := 200, success := some true, message := none
               data := some d, error := none }, calls)) := by
  unfold tryBlock
  split
  · exact Or.inl ⟨_, _, rfl⟩
  · split
    · exact Or.inr (Or.inl rfl)
    · split
      · exact Or.inr (Or.inr (Or.inl ⟨_, rfl⟩))
      · split
        · exact Or.inr (Or.inr (Or.inr ⟨_, _, rfl⟩))
        · exact Or.inl ⟨_, _, rfl⟩

/-- Every terminal response of the handler has one of five shapes. -/
theorem handler_response_shape (env : Option String) (p : ParseFn) (c : CompleteFn)
    (r : Request) :
    (handler env p c r).response =
      { status := 405, success := none, message := none, data := none
        error := some "Method not allowed" }
    ∨ (handler env p c r).response =
      { status := 400, success := some false, message := none, data := none
        error := some missingParamsError }
    ∨ (∃ d, (handler env p c r).response =
      { status := 200, success := some true, message := some demoNotice
        data := some d, error := none })
    ∨ (∃ d, (handler env p c r).response =
      { status := 200, success := some true, message := none
        data := some d, error := none })
    ∨ (∃ e, (handler env p c r).response =
      { status := 500, success := some false, message := none, data := none
        error := some e }) := by
  unfold handler
  dsimp only
  split
  · exact Or.inl rfl
  · rcases tryBlock_cases (MistralService.make (env.getD "")) p c r.body with
      ⟨e, calls, h⟩ | h | ⟨d, h⟩ | ⟨d, calls, h⟩ <;> rw [h]
    · exact Or.inr (Or.inr (Or.inr (Or.inr ⟨e, rfl⟩)))
    · exact Or.inr (Or.inl rfl)
    · exact Or.inr (Or.inr (Or.inl ⟨d, rfl⟩))
    · exact Or.inr (Or.inr (Or.inr (Or.inl ⟨d, rfl⟩)))

/-! ### Claim theorems -/

/-- C1 (counterexample): on a POST body missing both required fields the
handler does answer 400 with success = false, but the error field is the
Italian message of src/index.js line 101, not the literal string
"missing required parameters" stated by the claim. -/
theorem c1_error_string_counterexample :
    (handler none failParse failComplete
      { method := "POST"
        body := .objBody { systemPrompt := none, userMessage := none, maxTokens := none } }).response.status = 400
    ∧ (handler none failParse failComplete
      { method := "POST"
        body := .objBody { systemPrompt := none, userMessage := none, maxTokens := none } }).response.success = some false
    ∧ (handler none failParse failComplete
      { method := "POST"
        body := .objBody { systemPrompt := none, userMessage := none, maxTokens := none } }).response.error ≠
        some "missing required parameters" := by
  decide

/-- C1 (amended): for every POST invocation whose parsed body lacks
systemPrompt or userMessage, or has either equal to the empty string, the
handler returns status 400 with success = false and error equal to the
Italian message `missingParamsError`; no external call is issued and
nothing is error-logged. -/
theorem c1_validation_missing_params (env : Option String) (p : ParseFn)
    (c : CompleteFn) (body : ReqBody) (payload : Payload)
    (hparse : parsePayload body p = .ok payload)
    (hmiss : truthyStr payload.systemPrompt = false ∨ truthyStr payload.userMessage = false) :
    handler env p c { method := "POST", body := body } =
      { response := { status := 400, success := some false, message := none, data := none
                      error := some missingParamsError }
        calls := [], errorLogs := [] } := by
  apply handler_post_ok
  unfold tryBlock
  rw [hparse]
  rcases hmiss with h | h <;> simp [h]

theorem c1_validation_missing_params_witness :
    handler none failParse failComplete
      { method := "POST"
        body := .objBody { systemPrompt := some "", userMessage := some "hi", maxTokens := none } } =
      { response := { status := 400, success := some false, message := none, data := none
                      error := some missingParamsError }
        calls := [], errorLogs := [] } :=
  c1_validation_missing_params none failParse failComplete _ _ rfl (Or.inl (by decide))

/-- C2 (counterexample): a live-mode POST invocation that explicitly
supplies maxTokens = 0 forwards 1000 to the external call, not the
supplied value, because the handler computes `maxTokens || 1000`. -/
theorem c2_maxTokens_zero_counterexample :
    (handler (some "real-key") failParse oneChoiceComplete
      { method := "POST"
        body := .objBody { systemPrompt := some "s", userMessage := some "u", maxTokens := some 0 } }).calls.map
        (fun r => r.maxTokens) = [1000]
    ∧ (1000 : Int) ≠ 0 := by
  decide

/-- C2 (amended): in every valid live-mode POST invocation the token
limit forwarded to the external call is `jsOrNum maxTokens 1000`: 1000
when maxTokens is omitted, the supplied value when it is nonzero, and
1000 again when the supplied value is 0 (the JS `maxTokens || 1000`
treats 0 as falsy). -/
theorem c2_maxTokens_forwarding (env : Option String) (p : ParseFn) (c : CompleteFn)
    (sp um : String) (mt : Option Int)
    (hsp : sp.isEmpty = false) (hum : um.isEmpty = false)
    (hlive : (MistralService.make (env.getD "")).isDemo = false) :
    (handler env p c
      { method := "POST"
        body := .objBody { systemPrompt := some sp, userMessage := some um, maxTokens := mt } }).calls.map
        (fun r => r.maxTokens) = [jsOrNum mt 1000]
    ∧ (mt = none → jsOrNum mt 1000 = 1000)
    ∧ (∀ n : Int, mt = some n → n ≠ 0 → jsOrNum mt 1000 = n)
    ∧ jsOrNum (some 0) 1000 = 1000 := by
  refine ⟨?_, ?_, ?_, by decide⟩
  · rcases hls : liveSend c sp um (some (jsOrNum mt 1000)) with ⟨r, calls⟩
    have hcalls := liveSend_calls c sp um (some (jsOrNum mt 1000))
    rw [hls] at hcalls
    rcases r with e | t
    · rw [handler_live_error env p c
        (.objBody { systemPrompt := some sp, userMessage := some um, maxTokens := mt })
        { systemPrompt := some sp, userMessage := some um, maxTokens := mt } e calls hlive rfl
        (by simp [truthyStr, hsp]) (by simp [truthyStr, hum]) hls]
      simp at hcalls
      simp [hcalls]
    · rw [handler_live_ok env p c
        (.objBody { systemPrompt := some sp, userMessage := some um, maxTokens := mt })
        { systemPrompt := some sp, userMessage := some um, maxTokens := mt } t calls hlive rfl
        (by simp [truthyStr, hsp]) (by simp [truthyStr, hum]) hls]
      simp at hcalls
      simp [hcalls]
  · intro h; subst h; rfl
  · intro n h hn; subst h; simp [jsOrNum, hn]

theorem c2_maxTokens_forwarding_witness :
    (handler (some "real-key") failParse failComplete
      { method := "POST"
        body := .objBody { systemPrompt := some "s", userMessage := some "u", maxTokens := some 7 } }).calls.map
        (fun r => r.maxTokens) = [jsOrNum (some 7) 1000]
    ∧ ((some 7 : Option Int) = none → jsOrNum (some 7) 1000 = 1000)
    ∧ (∀ n : Int, (some 7 : Option Int) = some n → n ≠ 0 → jsOrNum (some 7) 1000 = n)
    ∧ jsOrNum (some 0) 1000 = 1000 :=
  c2_maxTokens_forwarding (some "real-key") failParse failComplete "s" "u" (some 7)
    rfl rfl (by decide)

/-- C3: every POST invocation with truthy systemPrompt and userMessage
under an absent, empty, or sentinel "demo-key" credential returns status
200 with success = true, the demo notice message, and a data string that
contains the literal userMessage as a substring; no external chat call is
issued. -/
theorem c3_demo_mode_response (env : Option String) (p : ParseFn) (c : CompleteFn)
    (body : ReqBody) (payload : Payload)
    (hdemo : env = none ∨ env = some "" ∨ env = some "demo-key")
    (hparse : parsePayload body p = .ok payload)
    (hsp : truthyStr payload.systemPrompt = true)
    (hum : truthyStr payload.userMessage = true) :
    handler env p c { method := "POST", body := body } =
      { response := { status := 200, success := some true, message := some demoNotice
                      data := some (demoData (payload.userMessage.getD "")), error := none }
        calls := [], errorLogs := [] }
    ∧ ∃ pre post, demoData (payload.userMessage.getD "") =
        pre ++ payload.userMessage.getD "" ++ post := by
  constructor
  · refine handler_demo env p c body payload ?_ hparse hsp hum
    rcases hdemo with h | h | h <;> subst h <;> simp
  · exact ⟨"[DEMO OUTPUT] Ho ricevuto il tuo messaggio: \"",
      "\". Questa è una risposta simulata per testare il flusso.", rfl⟩

theorem c3_demo_mode_response_witness :
    handler (some "demo-key") failParse failComplete
      { method := "POST"
        body := .objBody { systemPrompt := some "a", userMessage := some "b", maxTokens := none } } =
      { response := { status := 200, success := some true, message := some demoNotice
                      data := some (demoData ((some "b").getD "")), error := none }
        calls := [], errorLogs := [] }
    ∧ ∃ pre post, demoData ((some "b").getD "") =
        pre ++ (some "b").getD "" ++ post :=
  c3_demo_mode_response (some "demo-key") failParse failComplete
    (.objBody { systemPrompt := some "a", userMessage := some "b", maxTokens := none })
    { systemPrompt := some "a", userMessage := some "b", maxTokens := none }
    (Or.inr (Or.inr rfl)) rfl (by decide) (by decide)

/-- C4: every valid live-mode POST invocation issues exactly one external
chat request, whose message list is the system entry carrying systemPrompt
followed by the user entry carrying userMessage, with the fixed model id;
when the external response has a first choice, the handler returns 200
with success = true and data equal to that choice's message content. -/
theorem c4_live_request_and_success (env : Option String) (p : ParseFn) (c : CompleteFn)
    (body : ReqBody) (payload : Payload) (resp : ChatResponse)
    (ch : ChatChoice) (rest : List ChatChoice)
    (hlive : (MistralService.make (env.getD "")).isDemo = false)
    (hparse : parsePayload body p = .ok payload)
    (hsp : truthyStr payload.systemPrompt = true)
    (hum : truthyStr payload.userMessage = true)
    (hcall : c { model := "mistral-large-latest"
                 messages := [{ role := "system", content := payload.systemPrompt.getD "" },
                              { role := "user", content := payload.userMessage.getD "" }]
                 maxTokens := jsOrNum payload.maxTokens 1000 } = .ok resp)
    (hch : resp.choices = some (ch :: rest)) :
    handler env p c { method := "POST", body := body } =
      { response := { status := 200, success := some true, message := none
                      data := some ch.message.content, error := none }
        calls := [{ model := "mistral-large-latest"
                    messages := [{ role := "system", content := payload.systemPrompt.getD "" },
                                 { role := "user", content := payload.userMessage.getD "" }]
                    maxTokens := jsOrNum payload.maxTokens 1000 }]
        errorLogs := [] } := by
  apply handler_live_ok env p c body payload _ _ hlive hparse hsp hum
  exact liveSend_first_choice c _ _ _ resp ch rest hcall hch

theorem c4_live_request_and_success_witness :
    handler (some "real-key") failParse oneChoiceComplete
      { method := "POST"
        body := .objBody { systemPrompt := some "a", userMessage := some "b", maxTokens := none } } =
      { response := { status := 200, success := some true, message := none
                      data := some ({ message := { role := "assistant", content := "X" } } : ChatChoice).message.content
                      error := none }
        calls := [{ model := "mistral-large-latest"
                    messages := [{ role := "system", content := (some "a").getD "" },
                                 { role := "user", content := (some "b").getD "" }]
                    maxTokens := jsOrNum none 1000 }]
        errorLogs := [] } :=
  c4_live_request_and_success (some "real-key") failParse oneChoiceComplete
    (.objBody { systemPrompt := some "a", userMessage := some "b", maxTokens := none })
    { systemPrompt := some "a", userMessage := some "b", maxTokens := none }
    { choices := some [{ message := { role := "assistant", content := "X" } }] }
    { message := { role := "assistant", content := "X" } } []
    (by decide) rfl (by decide) (by decide) rfl rfl

/-- C5: every invocation whose method is not POST is answered 405 with
only the error field "Method not allowed"; the outcome is identical for
arbitrary bodies, parse oracles and external-call oracles, so no body
parsing, validation or external call takes place. -/
theorem c5_method_not_allowed (env : Option String) (p₁ p₂ : ParseFn)
    (c₁ c₂ : CompleteFn) (b₁ b₂ : ReqBody) (m : String) (hm : m ≠ "POST") :
    handler env p₁ c₁ { method := m, body := b₁ } =
      { response := { status := 405, success := none, message := none, data := none
                      error := some "Method not allowed" }
        calls := [], errorLogs := [] }
    ∧ handler env p₁ c₁ { method := m, body := b₁ } =
      handler env p₂ c₂ { method := m, body := b₂ } := by
  unfold handler
  dsimp only
  simp [hm]

theorem c5_method_not_allowed_witness :
    handler none failParse failComplete { method := "GET", body := .strBody "not json" } =
      { response := { status := 405, success := none, message := none, data := none
                      error := some "Method not allowed" }
        calls := [], errorLogs := [] }
    ∧ handler none failParse failComplete { method := "GET", body := .strBody "not json" } =
      handler none failParse oneChoiceComplete
        { method := "GET"
          body := .objBody { systemPrompt := some "a", userMessage := some "b", maxTokens := none } } :=
  c5_method_not_allowed none failParse failParse failComplete oneChoiceComplete
    (.strBody "not json")
    (.objBody { systemPrompt := some "a", userMessage := some "b", maxTokens := none })
    "GET" (by decide)

/-- C6: a valid live-mode POST invocation whose external response has a
missing or empty choices list is answered 500 with success = false and
the non-empty error message `emptyChoicesError`. -/
theorem c6_empty_choices_500 (env : Option String) (p : ParseFn) (c : CompleteFn)
    (body : ReqBody) (payload : Payload) (resp : ChatResponse)
    (hlive : (MistralService.make (env.getD "")).isDemo = false)
    (hparse : parsePayload body p = .ok payload)
    (hsp : truthyStr payload.systemPrompt = true)
    (hum : truthyStr payload.userMessage = true)
    (hcall : c { model := "mistral-large-latest"
                 messages := [{ role := "system", content := payload.systemPrompt.getD "" },
                              { role := "user", content := payload.userMessage.getD "" }]
                 maxTokens := jsOrNum payload.maxTokens 1000 } = .ok resp)
    (hempty : resp.choices = none ∨ resp.choices = some []) :
    handler env p c { method := "POST", body := body } =
      { response := { status := 500, success := some false, message := none
                      data := none, error := some emptyChoicesError }
        calls := [{ model := "mistral-large-latest"
                    messages := [{ role := "system", content := payload.systemPrompt.getD "" },
                                 { role := "user", content := payload.userMessage.getD "" }]
                    maxTokens := jsOrNum payload.maxTokens 1000 }]
        errorLogs := ["Function execution failed: " ++ emptyChoicesError] }
    ∧ emptyChoicesError ≠ "" := by
  constructor
  · apply handler_live_error env p c body payload _ _ hlive hparse hsp hum
    exact liveSend_empty_choices c _ _ _ resp hcall hempty
  · decide

theorem c6_empty_choices_500_witness :
    handler (some "real-key") failParse (fun _ => .ok { choices := some [] })
      { method := "POST"
        body := .objBody { systemPrompt := some "a", userMessage := some "b", maxTokens := none } } =
      { response := { status := 500, success := some false, message := none
                      data := none, error := some emptyChoicesError }
        calls := [{ model := "mistral-large-latest"
                    messages := [{ role := "system", content := (some "a").getD "" },
                                 { role := "user", content := (some "b").getD "" }]
                    maxTokens := jsOrNum none 1000 }]
        errorLogs := ["Function execution failed: " ++ emptyChoicesError] }
    ∧ emptyChoicesError ≠ "" :=
  c6_empty_choices_500 (some "real-key") failParse (fun _ => .ok { choices := some [] })
    (.objBody { systemPrompt := some "a", userMessage := some "b", maxTokens := none })
    { systemPrompt := some "a", userMessage := some "b", maxTokens := none }
    { choices := some [] } (by decide) rfl (by decide) (by decide) rfl (Or.inr rfl)

/-- C7: any failure raised inside the POST `try` block — in particular a
textual body on which the JSON parser throws — is caught, logged as
"Function execution failed: " followed by the failure message, and
converted to a 500 response with success = false and error equal to the
failure message; the handler is a total function, so no failure escapes. -/
theorem c7_outer_catch (env : Option String) (p : ParseFn) (c : CompleteFn)
    (body : ReqBody) (e : String) (calls : List ChatRequest)
    (h : tryBlock (MistralService.make (env.getD "")) p c body = (.error e, calls)) :
    handler env p c { method := "POST", body := body } =
      { response := { status := 500, success := some false, message := none
                      data := none, error := some e }
        calls := calls
        errorLogs := ["Function execution failed: " ++ e] }
    ∧ ∀ s msg, p s = .error msg →
        tryBlock (MistralService.make (env.getD "")) p c (.strBody s) = (.error msg, []) := by
  constructor
  · exact handler_post_error env p c body e calls h
  · intro s msg hmsg
    unfold tryBlock parsePayload
    dsimp only
    rw [hmsg]

theorem c7_outer_catch_witness :
    handler none failParse failComplete { method := "POST", body := .strBody "oops" } =
      { response := { status := 500, success := some false, message := none
                      data := none, error := some "Unexpected token in JSON" }
        calls := []
        errorLogs := ["Function execution failed: " ++ "Unexpected token in JSON"] }
    ∧ ∀ s msg, failParse s = .error msg →
        tryBlock (MistralService.make ((none : Option String).getD "")) failParse failComplete
          (.strBody s) = (.error msg, []) :=
  c7_outer_catch none failParse failComplete (.strBody "oops")
    "Unexpected token in JSON" [] rfl

/-- C8: in every terminal response exactly one of the data and error
fields is populated, and success = true implies the error field is
absent; the demo/live flag of the service is fixed at construction as a
pure function of the credential (the embedding is pure, so the flag
cannot mutate afterwards). -/
theorem c8_envelope_invariant (env : Option String) (p : ParseFn) (c : CompleteFn)
    (r : Request) :
    (((handler env p c r).response.data.isSome = true
        ∧ (handler env p c r).response.error = none)
      ∨ ((handler env p c r).response.data = none
        ∧ (handler env p c r).response.error.isSome = true))
    ∧ ((handler env p c r).response.success = some true →
        (handler env p c r).response.error = none)
    ∧ (MistralService.make (env.getD "")).isDemo =
        ((env.getD "").isEmpty || env.getD "" == "demo-key") := by
  refine ⟨?_, ?_, ?_⟩
  · rcases handler_response_shape env p c r with h | h | ⟨d, h⟩ | ⟨d, h⟩ | ⟨e, h⟩ <;>
      rw [h] <;> simp
  · rcases handler_response_shape env p c r with h | h | ⟨d, h⟩ | ⟨d, h⟩ | ⟨e, h⟩ <;>
      rw [h] <;> simp
  · unfold MistralService.make
    by_cases h : ((env.getD "").isEmpty || env.getD "" == "demo-key") = true <;> simp [h]

/-- C9: the null-client error branch of `sendMessage` is unreachable from
the handler entry point: for every invocation the handler behaves
identically to the variant in which that branch is deleted, because
`sendMessage` is only reached in live mode and a live-mode service
carries a non-null client. -/
theorem c9_demo_guard_unreachable (env : Option String) (p : ParseFn) (c : CompleteFn)
    (r : Request) :
    handler env p c r = handlerNoGuard env p c r := by
  unfold handler handlerNoGuard
  dsimp only
  have htb : tryBlock (MistralService.make (env.getD "")) p c r.body =
      tryBlockNoGuard (MistralService.make (env.getD "")) p c r.body := by
    unfold tryBlock tryBlockNoGuard
    cases parsePayload r.body p with
    | error e => rfl
    | ok payload =>
      dsimp only
      by_cases hv : (!truthyStr payload.systemPrompt || !truthyStr payload.userMessage) = true
      · simp [hv]
      · simp only [hv]
        by_cases hd : (MistralService.make (env.getD "")).isDemo = true
        · simp [hd]
        · simp only [hd]
          rw [sendMessage_of_not_demo _ _ _ _ _ (by simpa using hd)]
  rw [htb]

/-- C10: the demo-mode outcome is a deterministic function of userMessage
alone: two valid demo-mode POST invocations sharing the same userMessage
but with different systemPrompt, maxTokens, demo-selecting credential,
parse oracle, or external-call oracle produce identical outcomes. -/
theorem c10_demo_determinism (e₁ e₂ : Option String) (p₁ p₂ : ParseFn) (c₁ c₂ : CompleteFn)
    (sp₁ sp₂ um : String) (mt₁ mt₂ : Option Int)
    (hd₁ : e₁ = none ∨ e₁ = some "" ∨ e₁ = some "demo-key")
    (hd₂ : e₂ = none ∨ e₂ = some "" ∨ e₂ = some "demo-key")
    (hsp₁ : sp₁.isEmpty = false) (hsp₂ : sp₂.isEmpty = false)
    (hum : um.isEmpty = false) :
    handler e₁ p₁ c₁
      { method := "POST"
        body := .objBody { systemPrompt := some sp₁, userMessage := some um, maxTokens := mt₁ } } =
    handler e₂ p₂ c₂
      { method := "POST"
        body := .objBody { systemPrompt := some sp₂, userMessage := some um, maxTokens := mt₂ } } := by
  rw [handler_demo e₁ p₁ c₁
      (.objBody { systemPrompt := some sp₁, userMessage := some um, maxTokens := mt₁ })
      { systemPrompt := some sp₁, userMessage := some um, maxTokens := mt₁ }
      (by rcases hd₁ with h | h | h <;> subst h <;> simp) rfl
      (by simp [truthyStr, hsp₁]) (by simp [truthyStr, hum]),
    handler_demo e₂ p₂ c₂
      (.objBody { systemPrompt := some sp₂, userMessage := some um, maxTokens := mt₂ })
      { systemPrompt := some sp₂, userMessage := some um, maxTokens := mt₂ }
      (by rcases hd₂ with h | h | h <;> subst h <;> simp) rfl
      (by simp [truthyStr, hsp₂]) (by simp [truthyStr, hum])]

theorem c10_demo_determinism_witness :
    handler none failParse failComplete
      { method := "POST"
        body := .objBody { systemPrompt := some "x", userMessage := some "m", maxTokens := none } } =
    handler (some "demo-key") failParse oneChoiceComplete
      { method := "POST"
        body := .objBody { systemPrompt := some "y", userMessage := some "m", maxTokens := some 5 } } :=
  c10_demo_determinism none (some "demo-key") failParse failParse failComplete
    oneChoiceComplete "x" "y" "m" none (some 5)
    (Or.inl rfl) (Or.inr (Or.inr rfl)) rfl rfl rfl

end Stretchate
